import Mathlib

/-!
Verification of the TVspotter release-evaluation engine.

The definitions below are a shallow embedding of the JavaScript sources:
`tvspotter.js` (the `TVspotter` class: `isReleaseClose`, `encodeStatus`,
`checkTV`, `checkMovie`, `setCalNotification`), `dav.js` (the `DAVClient`
class: `checkIfEventExists`, `createEvent`) and `api.js` (`getImageLink`).

Modelling conventions:
* JavaScript numbers reaching `encodeStatus` are modelled by `JSNum`:
  values the model tracks exactly are `JSNum.int n`; every other `Number()`
  result (NaN, infinities, fractional values, and exotic literal forms such
  as hex or exponent notation that the program's own call sites never
  produce) is collapsed into the single summary value `JSNum.other`, which
  is absorbing for addition.
* A thrown JavaScript exception is modelled by `Except.error`; the
  `TypeError` raised by reading `.length` of `undefined` is
  `JSError.typeError`, and `throw '...'` of a string is
  `JSError.thrownString`.
* A `Date` value is modelled by the integer count of milliseconds since the
  epoch that it denotes.  Where the program carries a calendar date both as
  an ISO `YYYY-MM-DD` string and as the instant `new Date(string)` parses it
  to, the pair is a `DateVal`; the parse relation itself is carried as data,
  since no verified property depends on the numeric correspondence.
* `Math.round(x)` rounds half toward positive infinity.  The program only
  rounds quotients `delta / 86400000` of integer millisecond deltas; for
  such quotients (within several millennia of the epoch, far beyond the
  program's domain) the IEEE double division is close enough to the exact
  rational that the rounded result coincides with the exact half-up
  rounding, which `roundDiv` computes in integer arithmetic.
-/

namespace TVspotter

/-- Decidable equality for `Except` results, so that concrete runs of the
embedded functions can be checked by `decide`. -/
instance {ε α : Type} [DecidableEq ε] [DecidableEq α] : DecidableEq (Except ε α) := fun x y =>
  match x, y with
  | .ok a, .ok b =>
    if h : a = b then .isTrue (by rw [h]) else .isFalse (by simp [h])
  | .error a, .error b =>
    if h : a = b then .isTrue (by rw [h]) else .isFalse (by simp [h])
  | .ok _, .error _ => .isFalse (by simp)
  | .error _, .ok _ => .isFalse (by simp)

/-! ### Character and string primitives -/

/-- Decimal digit character for a value below ten (values ten or above are
clamped, matching how the rendering functions below always call it with a
remainder modulo ten). -/
def digitChar : Nat → Char
  | 0 => '0' | 1 => '1' | 2 => '2' | 3 => '3' | 4 => '4'
  | 5 => '5' | 6 => '6' | 7 => '7' | 8 => '8' | _ => '9'

/-- Fuelled base-10 rendering of a natural number, most significant digit
first; the fuel only serves to make the recursion structural. -/
def natDigitsAux (fuel : Nat) (n : Nat) : List Char :=
  match fuel with
  | 0 => []
  | fuel + 1 =>
    if n < 10 then [digitChar n]
    else natDigitsAux fuel (n / 10) ++ [digitChar (n % 10)]

/-- Canonical base-10 digit list of a natural number (no leading zeros,
`0` rendered as `"0"`), as JavaScript `Number.prototype.toString` renders
non-negative integers. -/
def natDigits (n : Nat) : List Char := natDigitsAux (n + 1) n

/-- String form of `natDigits`. -/
def natRepr (n : Nat) : String := String.mk (natDigits n)

/-- JavaScript rendering of an integer (`('' + i)`): a minus sign followed
by the absolute value for negative integers, `natRepr` otherwise. -/
def intRepr (i : Int) : String :=
  if i < 0 then "-" ++ String.mk (natDigits i.natAbs) else String.mk (natDigits i.toNat)

/-- Value of a list of decimal digit characters, most significant first. -/
def digitsToNat (l : List Char) : Nat :=
  l.foldl (fun a c => 10 * a + (c.toNat - 48)) 0

/-- Boolean prefix test on character lists (the effect of a `/^lit/` regex
test on the underlying string). -/
def isPre : List Char → List Char → Bool
  | [], _ => true
  | _ :: _, [] => false
  | a :: as, b :: bs => a == b && isPre as bs

/-- Splits a character list at the first occurrence of the (non-empty)
separator `sep`: returns the part strictly before it and the part strictly
after it, or `none` when `sep` does not occur. -/
def splitFirstAux (sep : List Char) : List Char → Option (List Char × List Char)
  | [] => none
  | c :: cs =>
    if isPre sep (c :: cs) then some ([], (c :: cs).drop sep.length)
    else
      match splitFirstAux sep cs with
      | some (pre, post) => some (c :: pre, post)
      | none => none

/-- JavaScript `haystack.includes(needle)` for a non-empty needle: does the
separator occur anywhere in the string? -/
def strContains (s needle : String) : Bool :=
  (splitFirstAux needle.data s.data).isSome

/-- JavaScript `/^pre/.test(s)` (equivalently `s.startsWith(pre)`). -/
def strStartsWith (s pre : String) : Bool :=
  isPre pre.data s.data

/-- JavaScript `s.split(sep)[1]` for a non-empty string separator: the
segment between the first and the second occurrence of `sep` (up to the end
of the string when there is no second occurrence), `none` standing for
`undefined` when `sep` does not occur at all. -/
def jsSplitAt1 (s sep : String) : Option String :=
  match splitFirstAux sep.data s.data with
  | none => none
  | some (_, rest) =>
    match splitFirstAux sep.data rest with
    | none => some (String.mk rest)
    | some (seg, _) => some (String.mk seg)

/-- JavaScript global dash-replace (`s.replace` with the global dash
pattern and an empty replacement): removes every dash. -/
def stripDashes (s : String) : String :=
  String.mk (s.data.filter (fun c => c ≠ '-'))

/-- JavaScript `s.substring(0, s.lastIndexOf('T'))`: everything before the
last `'T'`, and the empty string when no `'T'` occurs (`lastIndexOf`
returns `-1`, which `substring` clamps to `0`). -/
def beforeLastTStr (s : String) : String :=
  String.mk (((s.data.reverse.dropWhile (fun c => c ≠ 'T')).drop 1).reverse)

/-- JavaScript `s.padStart(2, '0')`. -/
def padStart2 (s : String) : String :=
  String.mk (List.replicate (2 - s.length) '0') ++ s

/-! ### JavaScript value model -/

/-- A JavaScript number as tracked by this model: either an exactly tracked
integer, or the summary value `other` for every result the model does not
track exactly (NaN, fractional values, and so on; see the module
docstring). -/
inductive JSNum where
  | int : Int → JSNum
  | other : JSNum
deriving DecidableEq

/-- A thrown JavaScript exception. -/
inductive JSError where
  | typeError : JSError
  | thrownString : String → JSError
deriving DecidableEq

/-- JavaScript `+` on numbers, at the precision of `JSNum`: exact on tracked
integers, absorbing on the summary value. -/
def jsAdd : JSNum → JSNum → JSNum
  | .int a, .int b => .int (a + b)
  | _, _ => .other

/-- Character-list worker for `jsStringToNumber`. -/
def jsNumOfChars : List Char → JSNum
  | [] => .int 0
  | c :: cs =>
    if c = '-' then
      if cs ≠ [] ∧ cs.all Char.isDigit then .int (-(digitsToNat cs : Int)) else .other
    else if c = '+' then
      if cs ≠ [] ∧ cs.all Char.isDigit then .int (digitsToNat cs) else .other
    else if (c :: cs).all Char.isDigit then .int (digitsToNat (c :: cs)) else .other

/-- JavaScript `Number(string)` at the precision of `JSNum`: the empty
string converts to `0`, an optionally signed string of decimal digits to
its exact integer value, and every other string to the summary value
`other` (this covers NaN-producing garbage as well as fractional,
exponent, hex, octal, binary, whitespace-padded and infinite forms, none
of which the program's own call sites produce). -/
def jsStringToNumber (s : String) : JSNum :=
  jsNumOfChars s.data

/-! ### Proximity evaluator (`tvspotter.js`, `isReleaseClose`) -/

/-- Milliseconds in a day, the divisor in `isReleaseClose`. -/
def msPerDay : Int := 86400000

/-- Exact half-up rounding of the quotient `x / d` (`d` positive):
`Math.round(x / d)` as JavaScript computes it for the program's date
deltas (see the module docstring for the floating-point argument). -/
def roundDiv (x d : Int) : Int := (2 * x + d) / (2 * d)

/-- Result shape of `isReleaseClose`. -/
structure ProximityResult where
  isClose : Bool
  difference : Int
deriving DecidableEq

/-- `TVspotter.isReleaseClose(dateNow, dateTarget, maxDifference)`: the two
dates are modelled by the millisecond instants they denote (the source
coerces a string `dateNow` through `new Date` first, which changes nothing
at this level).  `difference` is the rounded day count from `now` to
`target`, and `isClose` is the comparison against the threshold. -/
def isReleaseClose (nowMs targetMs maxDifference : Int) : ProximityResult :=
  let difference := roundDiv (targetMs - nowMs) msPerDay
  { isClose := decide (difference ≤ maxDifference), difference := difference }

/-! ### Status encoder (`tvspotter.js`, `encodeStatus`) -/

/-- One magnitude-suffixed arm of `encodeStatus`: the source computes
`status = base`, extracts `difference = raw.split(sep)[1]`, multiplies by
`10 ** difference.length` and adds `Number(difference)`.  When `sep` does
not occur in `raw`, `split(sep)[1]` is `undefined` and reading `.length`
throws a `TypeError`. -/
def encodeSuffix (base : Int) (raw sep : String) : Except JSError JSNum :=
  match jsSplitAt1 raw sep with
  | none => .error .typeError
  | some difference =>
    .ok (jsAdd (.int (base * 10 ^ difference.length)) (jsStringToNumber difference))

/-- `TVspotter.encodeStatus(mode, raw)`: the `switch (true)` cascades of the
source, in their order (exact matches first, then the `/^.../` regex
tests), with `-1` as the untouched initial value for every unmatched
input. -/
def encodeStatus (mode raw : String) : Except JSError JSNum :=
  if mode = "tv" then
    if raw = "ended" then .ok (.int 0)
    else if raw = "already-released" then .ok (.int 10)
    else if strStartsWith raw "close" then encodeSuffix 20 raw "close,"
    else if strStartsWith raw "none" then encodeSuffix 30 raw "none,"
    else .ok (.int (-1))
  else if mode = "movie" then
    if raw = "theatrical-already-released" then .ok (.int 11)
    else if raw = "digitalPhysical-already-released" then .ok (.int 12)
    else if strStartsWith raw "theatrical-close" then encodeSuffix 21 raw "theatrical-close,"
    else if strStartsWith raw "digitalPhysical-close" then encodeSuffix 22 raw "digitalPhysical-close,"
    else if strStartsWith raw "theatrical-none" then encodeSuffix 31 raw "theatrical-none,"
    else if strStartsWith raw "digitalPhysical-none" then encodeSuffix 32 raw "digitalPhysical-none,"
    else .ok (.int (-1))
  else .ok (.int (-1))

/-! ### Release orchestrator (`tvspotter.js`, `checkTV` / `checkMovie`) -/

/-- `TMDb.getImageLink(imageFilename, width)` from `api.js`. -/
def getImageLink (imageFilename width : String) : String :=
  if width = "original" then "https://image.tmdb.org/t/p/" ++ width ++ imageFilename
  else "https://image.tmdb.org/t/p/" ++ "w" ++ width ++ imageFilename

/-- A calendar-date value as the program passes it around: the ISO
`YYYY-MM-DD` rendering together with the millisecond instant it denotes
(for `now`, the instant of `new Date()` together with
`now.toISOString().split('T')[0]`). -/
structure DateVal where
  iso : String
  ms : Int
deriving DecidableEq

/-- Arguments of one `setCalNotification(title, description, date, ...)`
call issued by the orchestrator (the trailing wait flag only times the
fire-and-forget dispatch and is not modelled). -/
structure Notification where
  summary : String
  description : String
  date : String
deriving DecidableEq

/-- The fields of `details.next_episode_to_air` that `checkTV` reads. -/
structure EpisodeInfo where
  air_date : DateVal
  season_number : Nat
  episode_number : Nat
deriving DecidableEq

/-- The fields of a TMDb TV-details payload that `checkTV` reads.  A payload
without `next_episode_to_air` for an in-production show is a data-contract
violation of the fetch layer and is not modelled. -/
structure TVDetails where
  name : String
  original_name : String
  first_air_date : String
  in_production : Bool
  next_episode_to_air : EpisodeInfo
  poster_path : String
  backdrop_path : String
deriving DecidableEq

/-- The record `checkTV` resolves with (one row of the `tv` table). -/
structure TVRecord where
  tmdbId : Int
  name : String
  originalName : String
  firstRelease : String
  nextRelease : String
  nextEpisode : String
  poster : String
  backdrop : String
  status : JSNum
deriving DecidableEq

/-- `TVspotter.checkTV(id, maxDaysDifference)`: the resolved record paired
with the list of `setCalNotification` calls the run issues, in order; a
thrown exception becomes `Except.error`.  `now` is the `new Date()` taken
inside the source function, passed here as a parameter. -/
def checkTV (id : Int) (details : TVDetails) (now : DateVal) (maxDaysDifference : Int) :
    Except JSError (TVRecord × List Notification) :=
  if !details.in_production then
    (encodeStatus "tv" "ended").map fun st =>
      ({ tmdbId := id, name := details.name, originalName := details.original_name,
         firstRelease := details.first_air_date, nextRelease := "", nextEpisode := "",
         poster := getImageLink details.poster_path "original",
         backdrop := getImageLink details.backdrop_path "original", status := st }, [])
  else
    let ep := details.next_episode_to_air
    let isClose := isReleaseClose now.ms ep.air_date.ms maxDaysDifference
    let nextEpisode :=
      "S" ++ padStart2 (natRepr ep.season_number) ++ "E" ++ padStart2 (natRepr ep.episode_number)
    let statusNotifs : String × List Notification :=
      if isClose.isClose ∧ isClose.difference < 0 then
        ("already-released",
         [{ summary := details.name ++ " [" ++ nextEpisode ++ "]",
            description := "already-released", date := now.iso }])
      else if isClose.isClose then
        ("close," ++ intRepr isClose.difference,
         [{ summary := details.name ++ " [" ++ nextEpisode ++ "]",
            description := "close," ++ intRepr isClose.difference, date := ep.air_date.iso }])
      else ("none," ++ intRepr isClose.difference, [])
    (encodeStatus "tv" statusNotifs.1).map fun st =>
      ({ tmdbId := id, name := details.name, originalName := details.original_name,
         firstRelease := details.first_air_date, nextRelease := ep.air_date.iso,
         nextEpisode := nextEpisode,
         poster := getImageLink details.poster_path "original",
         backdrop := getImageLink details.backdrop_path "original", status := st },
       statusNotifs.2)

/-- The fields of a TMDb movie-details payload that `checkMovie` reads. -/
structure MovieDetails where
  title : String
  original_title : String
  release_date : String
  poster_path : String
  backdrop_path : String
deriving DecidableEq

/-- One entry of a region's `release_dates` array: the integer milestone
`type`, the raw release-date string, and (as carried data) the instant
`new Date` parses the string trimmed at its last `'T'` to. -/
structure MovieReleaseDate where
  type : Int
  release_date : String
  dateMs : Int
deriving DecidableEq

/-- One entry of the TMDb release-dates payload: a region code with its
release-date list. -/
structure RegionalReleases where
  iso_3166_1 : String
  release_dates : List MovieReleaseDate
deriving DecidableEq

/-- The record `checkMovie` resolves with (one row of the `movies` table). -/
structure MovieRecord where
  tmdbId : Int
  name : String
  originalName : String
  firstRelease : String
  theatricalRelease : String
  digitalPhysicalRelease : String
  poster : String
  backdrop : String
  status : JSNum
deriving DecidableEq

/-- The substituted object `{ release_date: 'T' }` of the source (the other
two fields are never read from the sentinel and hold arbitrary values
here). -/
def sentinelRelease : MovieReleaseDate :=
  { type := 0, release_date := "T", dateMs := 0 }

/-- The theatrical arm of `checkMovie`: trims the date string, evaluates
proximity, and returns the status string written into the shared `status`
variable together with the notification the arm issues, if any. -/
def theatricalEval (title : String) (now : DateVal) (rd : MovieReleaseDate)
    (maxDaysDifference : Int) : String × List Notification :=
  let date := beforeLastTStr rd.release_date
  let isClose := isReleaseClose now.ms rd.dateMs maxDaysDifference
  if isClose.isClose ∧ isClose.difference < 0 then
    ("theatrical-already-released",
     [{ summary := title, description := "theatrical-already-released", date := now.iso }])
  else if isClose.isClose then
    ("theatrical-close," ++ intRepr isClose.difference,
     [{ summary := title, description := "theatrical-close," ++ intRepr isClose.difference,
        date := date }])
  else ("theatrical-none," ++ intRepr isClose.difference, [])

/-- The digital/physical arm of `checkMovie`, same shape as
`theatricalEval` with the `digitalPhysical-` status strings. -/
def digitalPhysicalEval (title : String) (now : DateVal) (rd : MovieReleaseDate)
    (maxDaysDifference : Int) : String × List Notification :=
  let date := beforeLastTStr rd.release_date
  let isClose := isReleaseClose now.ms rd.dateMs maxDaysDifference
  if isClose.isClose ∧ isClose.difference < 0 then
    ("digitalPhysical-already-released",
     [{ summary := title, description := "digitalPhysical-already-released", date := now.iso }])
  else if isClose.isClose then
    ("digitalPhysical-close," ++ intRepr isClose.difference,
     [{ summary := title, description := "digitalPhysical-close," ++ intRepr isClose.difference,
        date := date }])
  else ("digitalPhysical-none," ++ intRepr isClose.difference, [])

/-- Region selection of `checkMovie`: filter to `"US"`, falling back to
`"DE"` when no `"US"` entry exists. -/
def movieRegion (releases : List RegionalReleases) : List RegionalReleases :=
  let filtered := releases.filter (fun res => res.iso_3166_1 = "US")
  if filtered.isEmpty then releases.filter (fun res => res.iso_3166_1 = "DE") else filtered

/-- Digital/physical milestone selection of `checkMovie`: the type-5
entries, falling back to the type-4 entries when there are none. -/
def digitalPick (region : RegionalReleases) : List MovieReleaseDate :=
  let digitalPhysical := region.release_dates.filter (fun rel => rel.type = 5)
  if digitalPhysical.isEmpty then region.release_dates.filter (fun rel => rel.type = 4)
  else digitalPhysical

/-- `TVspotter.checkMovie(id, maxDaysDifference)`: the resolved record
paired with the issued `setCalNotification` calls in order (theatrical arm
first), or the thrown error.  Both arms write the same `status` variable,
so the digital/physical arm's string, when that arm runs, is the one that
reaches `encodeStatus`. -/
def checkMovie (id : Int) (details : MovieDetails) (releases : List RegionalReleases)
    (now : DateVal) (maxDaysDifference : Int) :
    Except JSError (MovieRecord × List Notification) :=
  match movieRegion releases with
  | [] => .error (.thrownString "No releases for US or DE found!")
  | region :: _ =>
    let theatrical := region.release_dates.filter (fun rel => rel.type = 3)
    let digitalPhysical := digitalPick region
    let thArm : String × List Notification × MovieReleaseDate :=
      match theatrical with
      | [] => ("", [], sentinelRelease)
      | t :: _ =>
        let e := theatricalEval details.title now t maxDaysDifference
        (e.1, e.2, t)
    let digArm : String × List Notification × MovieReleaseDate :=
      match digitalPhysical with
      | [] => (thArm.1, [], sentinelRelease)
      | dp :: _ =>
        let e := digitalPhysicalEval details.title now dp maxDaysDifference
        (e.1, e.2, dp)
    (encodeStatus "movie" digArm.1).map fun st =>
      ({ tmdbId := id, name := details.title, originalName := details.original_title,
         firstRelease := details.release_date,
         theatricalRelease := beforeLastTStr thArm.2.2.release_date,
         digitalPhysicalRelease := beforeLastTStr digArm.2.2.release_date,
         poster := getImageLink details.poster_path "original",
         backdrop := getImageLink details.backdrop_path "original", status := st },
       thArm.2.1 ++ digArm.2.1)

/-! ### Notification dispatcher (`dav.js` / `tvspotter.js`) -/

/-- A calendar object as `DAVClient` sees it: its iCalendar text. -/
structure CalEvent where
  calendarData : String
deriving DecidableEq

/-- A calendar handle: the currently-known event list. -/
structure Calendar where
  objects : List CalEvent
deriving DecidableEq

/-- The `data` record `setCalNotification` builds (`end` is `endDate`
here, `end` being reserved). -/
structure EventData where
  summary : String
  description : String
  start : String
  endDate : String
deriving DecidableEq

/-- `DAVClient.checkIfEventExists(calendar, data)`: filter the known events
to those containing the summary, then look for one containing both
formatted date tokens (the source's `forEach` over a `found` flag is an
existence scan). -/
def checkIfEventExists (calendar : Calendar) (data : EventData) : Bool :=
  let events := calendar.objects.filter (fun obj => strContains obj.calendarData data.summary)
  events.any (fun event =>
    strContains event.calendarData ("DTSTART;VALUE=DATE:" ++ stripDashes data.start) &&
    strContains event.calendarData ("DTEND;VALUE=DATE:" ++ stripDashes data.endDate))

/-- `TVspotter.setCalNotification(title, description, date, ...)`, reduced
to its creation decision: the list of `createEvent` calls it issues against
the calendar state it observes after its re-sync (empty when a matching
event already exists).  The initial fixed delay and the fire-and-forget
dispatch do not change which creations are issued. -/
def setCalNotification (calendar : Calendar) (title description date : String) :
    List EventData :=
  let data : EventData :=
    { summary := title, description := description, start := date, endDate := date }
  if checkIfEventExists calendar data then [] else [data]

/-! ### The documented status table (spec section 3) -/

/-- One row of the documented status table: media kind crossed with
milestone/proximity category. -/
inductive StatusKind where
  | tvEnded
  | tvAlreadyReleased
  | tvClose
  | tvNone
  | movieTheatricalAlreadyReleased
  | movieDigitalPhysicalAlreadyReleased
  | movieTheatricalClose
  | movieDigitalPhysicalClose
  | movieTheatricalNone
  | movieDigitalPhysicalNone
deriving DecidableEq

/-- The mode argument the table row is encoded under. -/
def kindMode : StatusKind → String
  | .tvEnded | .tvAlreadyReleased | .tvClose | .tvNone => "tv"
  | _ => "movie"

/-- The documented base code of the table row. -/
def kindBase : StatusKind → Int
  | .tvEnded => 0
  | .tvAlreadyReleased => 10
  | .tvClose => 20
  | .tvNone => 30
  | .movieTheatricalAlreadyReleased => 11
  | .movieDigitalPhysicalAlreadyReleased => 12
  | .movieTheatricalClose => 21
  | .movieDigitalPhysicalClose => 22
  | .movieTheatricalNone => 31
  | .movieDigitalPhysicalNone => 32

/-- Whether the table row carries a day-magnitude suffix (the close/none
rows) rather than being an exact-match category. -/
def kindSuffixed : StatusKind → Bool
  | .tvClose | .tvNone | .movieTheatricalClose | .movieDigitalPhysicalClose
  | .movieTheatricalNone | .movieDigitalPhysicalNone => true
  | _ => false

/-- The raw status string of the table row, with magnitude `d` rendered in
base 10 without leading zeros for the suffixed rows (`d` is ignored by the
exact-match rows). -/
def kindRaw : StatusKind → Nat → String
  | .tvEnded, _ => "ended"
  | .tvAlreadyReleased, _ => "already-released"
  | .tvClose, d => "close," ++ natRepr d
  | .tvNone, d => "none," ++ natRepr d
  | .movieTheatricalAlreadyReleased, _ => "theatrical-already-released"
  | .movieDigitalPhysicalAlreadyReleased, _ => "digitalPhysical-already-released"
  | .movieTheatricalClose, d => "theatrical-close," ++ natRepr d
  | .movieDigitalPhysicalClose, d => "digitalPhysical-close," ++ natRepr d
  | .movieTheatricalNone, d => "theatrical-none," ++ natRepr d
  | .movieDigitalPhysicalNone, d => "digitalPhysical-none," ++ natRepr d

/-- The integer code the table documents for the row: the bare base code
for exact-match rows, and the base shifted left by the magnitude's digit
count plus the magnitude for suffixed rows. -/
def statusCodeOf (k : StatusKind) (d : Nat) : Int :=
  if kindSuffixed k then kindBase k * 10 ^ (natRepr d).length + (d : Int) else kindBase k

/-! ### Pattern vocabulary of `encodeStatus` (for the safety analysis) -/

/-- The raw status starts with the given category pattern but lacks the
comma-terminated separator that the corresponding `split` call slices on
(so `split(sep)[1]` is `undefined`). -/
@[reducible] def throwsFor (raw pat sep : String) : Prop :=
  strStartsWith raw pat = true ∧ strContains raw sep = false

/-- The exact `(mode, raw)` inputs on which `encodeStatus` dereferences
`undefined` (reading `.length` of a missing `split` segment). -/
@[reducible] def encodeThrows (mode raw : String) : Prop :=
  (mode = "tv" ∧ (throwsFor raw "close" "close," ∨ throwsFor raw "none" "none,")) ∨
  (mode = "movie" ∧
    (throwsFor raw "theatrical-close" "theatrical-close," ∨
     throwsFor raw "digitalPhysical-close" "digitalPhysical-close," ∨
     throwsFor raw "theatrical-none" "theatrical-none," ∨
     throwsFor raw "digitalPhysical-none" "digitalPhysical-none,"))

/-- The raw status matches one of the known patterns of `encodeStatus` for
the given mode (an exact category string, or one of the category-prefix
regex tests). -/
@[reducible] def matchesKnown (mode raw : String) : Prop :=
  (mode = "tv" ∧
    (raw = "ended" ∨ raw = "already-released" ∨
     strStartsWith raw "close" = true ∨ strStartsWith raw "none" = true)) ∨
  (mode = "movie" ∧
    (raw = "theatrical-already-released" ∨ raw = "digitalPhysical-already-released" ∨
     strStartsWith raw "theatrical-close" = true ∨
     strStartsWith raw "digitalPhysical-close" = true ∨
     strStartsWith raw "theatrical-none" = true ∨
     strStartsWith raw "digitalPhysical-none" = true))

/-! ### Concrete sample inputs (used by the witness theorems) -/

/-- Sample movie-details payload. -/
def sampleMovieDetails : MovieDetails :=
  { title := "Movie", original_title := "Movie", release_date := "2024-01-01",
    poster_path := "/p.jpg", backdrop_path := "/b.jpg" }

/-- Sample theatrical (type 3) release entry. -/
def sampleTheatrical : MovieReleaseDate :=
  { type := 3, release_date := "2024-03-01T00:00:00.000Z", dateMs := 1709251200000 }

/-- Sample digital (type 5) release entry. -/
def sampleDigital : MovieReleaseDate :=
  { type := 5, release_date := "2024-06-01T00:00:00.000Z", dateMs := 1717200000000 }

/-- Sample US region carrying both milestone kinds. -/
def sampleRegionUS : RegionalReleases :=
  { iso_3166_1 := "US", release_dates := [sampleTheatrical, sampleDigital] }

/-- Sample US region with neither a theatrical nor a digital/physical
milestone (only a premiere, type 1). -/
def sampleRegionBare : RegionalReleases :=
  { iso_3166_1 := "US",
    release_dates := [{
      type := 1, release_date := "2024-01-01T00:00:00.000Z", dateMs := 1704067200000 }] }

/-- Sample evaluation instant. -/
def sampleNow : DateVal := { iso := "2024-02-20", ms := 1708387200000 }

/-- Sample calendar already holding a matching event. -/
def sampleCalendar : Calendar :=
  { objects := [{ calendarData := "BEGIN:VCALENDAR\nSUMMARY:Show [S03E04]\nDESCRIPTION:close,6\nDTSTART;VALUE=DATE:20240501\nDTEND;VALUE=DATE:20240501\nEND:VCALENDAR" }] }

/-! ### Lemmas: decimal rendering and parsing -/

theorem digitChar_isDigit (n : Nat) : (digitChar n).isDigit = true := by
  rcases n with _ | _ | _ | _ | _ | _ | _ | _ | _ | n <;> rfl

theorem digitChar_toNat (n : Nat) (h : n < 10) : (digitChar n).toNat - 48 = n := by
  interval_cases n <;> rfl

theorem natDigitsAux_congr :
    ∀ (f1 f2 n : Nat), n < f1 → n < f2 → natDigitsAux f1 n = natDigitsAux f2 n := by
  intro f1
  induction f1 with
  | zero => intro f2 n h; omega
  | succ f ih =>
    intro f2 n h1 h2
    cases f2 with
    | zero => omega
    | succ g =>
      by_cases h10 : n < 10
      · simp [natDigitsAux, h10]
      · have hd : n / 10 < n := Nat.div_lt_self (by omega) (by omega)
        simp only [natDigitsAux, if_neg h10]
        rw [ih g (n / 10) (by omega) (by omega)]

theorem natDigits_eq (n : Nat) :
    natDigits n = if n < 10 then [digitChar n] else natDigits (n / 10) ++ [digitChar (n % 10)] := by
  have h : natDigits n
      = if n < 10 then [digitChar n] else natDigitsAux n (n / 10) ++ [digitChar (n % 10)] := rfl
  rw [h]
  by_cases h10 : n < 10
  · simp [h10]
  · have hd : n / 10 < n := Nat.div_lt_self (by omega) (by omega)
    simp only [if_neg h10]
    rw [natDigitsAux_congr n (n / 10 + 1) (n / 10) (by omega) (by omega)]
    rfl

theorem natDigits_ne_nil (n : Nat) : natDigits n ≠ [] := by
  rw [natDigits_eq]
  by_cases h10 : n < 10 <;> simp [h10]

theorem natDigits_all_isDigit (n : Nat) : ∀ c ∈ natDigits n, c.isDigit = true := by
  induction n using Nat.strong_induction_on with
  | _ n ih =>
    rw [natDigits_eq]
    by_cases h10 : n < 10
    · simp only [if_pos h10, List.mem_singleton]
      intro c hc; rw [hc]; exact digitChar_isDigit n
    · have hd : n / 10 < n := Nat.div_lt_self (by omega) (by omega)
      simp only [if_neg h10, List.mem_append, List.mem_singleton]
      intro c hc
      rcases hc with hc | hc
      · exact ih (n / 10) hd c hc
      · rw [hc]; exact digitChar_isDigit (n % 10)

theorem digitsToNat_append_singleton (l : List Char) (c : Char) :
    digitsToNat (l ++ [c]) = 10 * digitsToNat l + (c.toNat - 48) := by
  simp [digitsToNat, List.foldl_append]

theorem digitsToNat_natDigits (n : Nat) : digitsToNat (natDigits n) = n := by
  induction n using Nat.strong_induction_on with
  | _ n ih =>
    rw [natDigits_eq]
    by_cases h10 : n < 10
    · simp only [if_pos h10, digitsToNat, List.foldl_cons, List.foldl_nil]
      have := digitChar_toNat n h10
      omega
    · have hd : n / 10 < n := Nat.div_lt_self (by omega) (by omega)
      simp only [if_neg h10]
      rw [digitsToNat_append_singleton, ih (n / 10) hd, digitChar_toNat (n % 10) (by omega)]
      omega

theorem natDigits_lt (n : Nat) : n < 10 ^ (natDigits n).length := by
  induction n using Nat.strong_induction_on with
  | _ n ih =>
    rw [natDigits_eq]
    by_cases h10 : n < 10
    · simp [h10]
    · have hd : n / 10 < n := Nat.div_lt_self (by omega) (by omega)
      have hl := ih (n / 10) hd
      simp only [if_neg h10, List.length_append, List.length_singleton, pow_succ]
      omega

theorem natRepr_data (n : Nat) : (natRepr n).data = natDigits n := rfl

theorem natRepr_length (n : Nat) : (natRepr n).length = (natDigits n).length := rfl

/-! ### Lemmas: substring search -/

theorem isPre_append_self (l rest : List Char) : isPre l (l ++ rest) = true := by
  induction l with
  | nil => rfl
  | cons a as ih => simp [isPre, ih]

theorem splitFirstAux_append (a : Char) (as rest : List Char) :
    splitFirstAux (a :: as) ((a :: as) ++ rest) = some ([], rest) := by
  have hcons : (a :: as) ++ rest = a :: (as ++ rest) := rfl
  rw [hcons]
  simp only [splitFirstAux]
  rw [← hcons, if_pos (isPre_append_self (a :: as) rest)]
  simp [List.drop_left]

theorem splitFirstAux_none (a : Char) (as : List Char) :
    ∀ (s : List Char), (∀ c ∈ s, ¬ c = a) → splitFirstAux (a :: as) s = none := by
  intro s
  induction s with
  | nil => intro _; rfl
  | cons c cs ih =>
    intro h
    have hca : (a == c) = false := by
      have := h c (by simp)
      simp only [beq_eq_false_iff_ne, ne_eq]
      intro hac; exact this hac.symm
    have hpre : isPre (a :: as) (c :: cs) = false := by simp [isPre, hca]
    simp only [splitFirstAux, hpre, Bool.false_eq_true, if_false]
    rw [ih (fun d hd => h d (by simp [hd]))]

theorem string_mk_data (s : String) : String.mk s.data = s := rfl

theorem jsSplitAt1_append (sep suffix : String) (a : Char) (as : List Char)
    (hsep : sep.data = a :: as) (hsuf : ∀ c ∈ suffix.data, ¬ c = a) :
    jsSplitAt1 (sep ++ suffix) sep = some suffix := by
  have hdata : (sep ++ suffix).data = sep.data ++ suffix.data := rfl
  unfold jsSplitAt1
  rw [hdata, hsep, splitFirstAux_append]
  dsimp only
  rw [splitFirstAux_none a as suffix.data hsuf]

/-! ### Lemmas: number conversion -/

theorem jsNumOfChars_digits (l : List Char) (hne : l ≠ [])
    (hall : ∀ c ∈ l, c.isDigit = true) :
    jsNumOfChars l = .int (digitsToNat l) := by
  cases l with
  | nil => exact absurd rfl hne
  | cons c cs =>
    have hc : c.isDigit = true := hall c (by simp)
    have hcm : ¬ c = '-' := by
      intro h; rw [h] at hc; exact absurd hc (by decide)
    have hcp : ¬ c = '+' := by
      intro h; rw [h] at hc; exact absurd hc (by decide)
    have hallb : (c :: cs).all Char.isDigit = true := List.all_eq_true.mpr hall
    simp [jsNumOfChars, hcm, hcp, hallb]

theorem jsStringToNumber_natRepr (n : Nat) : jsStringToNumber (natRepr n) = .int n := by
  unfold jsStringToNumber
  rw [natRepr_data, jsNumOfChars_digits (natDigits n) (natDigits_ne_nil n) (natDigits_all_isDigit n),
    digitsToNat_natDigits]

theorem intRepr_nonneg (i : Int) (h : 0 ≤ i) : intRepr i = natRepr i.toNat := by
  unfold intRepr natRepr
  rw [if_neg (by omega)]

theorem intRepr_negative (i : Int) (h : i < 0) :
    intRepr i = "-" ++ String.mk (natDigits i.natAbs) := by
  unfold intRepr
  rw [if_pos h]

theorem jsStringToNumber_intRepr (i : Int) : jsStringToNumber (intRepr i) = .int i := by
  rcases le_or_lt 0 i with h | h
  · rw [intRepr_nonneg i h, jsStringToNumber_natRepr]
    congr 1
    omega
  · rw [intRepr_negative i h]
    have hdata : ("-" ++ String.mk (natDigits i.natAbs)).data = '-' :: natDigits i.natAbs := rfl
    unfold jsStringToNumber
    rw [hdata]
    have hne : natDigits i.natAbs ≠ [] := natDigits_ne_nil _
    have hallb : (natDigits i.natAbs).all Char.isDigit = true :=
      List.all_eq_true.mpr (natDigits_all_isDigit _)
    simp only [jsNumOfChars, if_pos rfl, hne, hallb, and_true, ne_eq, not_false_iff, if_true,
      reduceIte, digitsToNat_natDigits]
    congr 1
    omega

theorem intRepr_chars (i : Int) : ∀ c ∈ (intRepr i).data, c.isDigit = true ∨ c = '-' := by
  rcases le_or_lt 0 i with h | h
  · rw [intRepr_nonneg i h]
    intro c hc
    exact Or.inl (natDigits_all_isDigit _ c hc)
  · rw [intRepr_negative i h]
    intro c hc
    have hd : ("-" ++ String.mk (natDigits i.natAbs)).data = '-' :: natDigits i.natAbs := rfl
    rw [hd] at hc
    rcases List.mem_cons.mp hc with hc | hc
    · exact Or.inr hc
    · exact Or.inl (natDigits_all_isDigit _ c hc)

/-! ### Lemmas: the magnitude-suffixed arms of `encodeStatus` -/

theorem encodeSuffix_eval (base : Int) (sep : String) (i : Int) (a : Char) (as : List Char)
    (hsep : sep.data = a :: as) (hd : a.isDigit = false) (hm : ¬ a = '-') :
    encodeSuffix base (sep ++ intRepr i) sep
      = .ok (.int (base * 10 ^ (intRepr i).length + i)) := by
  have hnotin : ∀ c ∈ (intRepr i).data, ¬ c = a := by
    intro c hc hca
    rcases intRepr_chars i c hc with h | h
    · rw [hca] at h; rw [h] at hd; cases hd
    · rw [h] at hca; exact hm hca.symm
  unfold encodeSuffix
  rw [jsSplitAt1_append sep (intRepr i) a as hsep hnotin]
  dsimp only
  rw [jsStringToNumber_intRepr]
  rfl

theorem encodeStatus_tv_close (i : Int) :
    encodeStatus "tv" ("close," ++ intRepr i)
      = .ok (.int (20 * 10 ^ (intRepr i).length + i)) := by
  have h1 : ¬ ("close," ++ intRepr i) = "ended" := by
    intro h; have h' := congrArg String.data h; simp at h'
  have h2 : ¬ ("close," ++ intRepr i) = "already-released" := by
    intro h; have h' := congrArg String.data h; simp at h'
  have h3 : strStartsWith ("close," ++ intRepr i) "close" = true := by
    simp [strStartsWith, isPre]
  unfold encodeStatus
  rw [if_pos rfl, if_neg h1, if_neg h2, if_pos h3]
  exact encodeSuffix_eval 20 "close," i 'c' _ rfl (by decide) (by decide)

theorem encodeStatus_tv_none (i : Int) :
    encodeStatus "tv" ("none," ++ intRepr i)
      = .ok (.int (30 * 10 ^ (intRepr i).length + i)) := by
  have h1 : ¬ ("none," ++ intRepr i) = "ended" := by
    intro h; have h' := congrArg String.data h; simp at h'
  have h2 : ¬ ("none," ++ intRepr i) = "already-released" := by
    intro h; have h' := congrArg String.data h; simp at h'
  have h3 : ¬ strStartsWith ("none," ++ intRepr i) "close" = true := by
    simp [strStartsWith, isPre]
  have h4 : strStartsWith ("none," ++ intRepr i) "none" = true := by
    simp [strStartsWith, isPre]
  unfold encodeStatus
  rw [if_pos rfl, if_neg h1, if_neg h2, if_neg h3, if_pos h4]
  exact encodeSuffix_eval 30 "none," i 'n' _ rfl (by decide) (by decide)

theorem encodeStatus_movie_th_close (i : Int) :
    encodeStatus "movie" ("theatrical-close," ++ intRepr i)
      = .ok (.int (21 * 10 ^ (intRepr i).length + i)) := by
  have h1 : ¬ ("theatrical-close," ++ intRepr i) = "theatrical-already-released" := by
    intro h; have h' := congrArg String.data h; simp at h'
  have h2 : ¬ ("theatrical-close," ++ intRepr i) = "digitalPhysical-already-released" := by
    intro h; have h' := congrArg String.data h; simp at h'
  have h3 : strStartsWith ("theatrical-close," ++ intRepr i) "theatrical-close" = true := by
    simp [strStartsWith, isPre]
  unfold encodeStatus
  rw [if_neg (show ¬ ("movie" : String) = "tv" by decide), if_pos rfl, if_neg h1, if_neg h2,
    if_pos h3]
  exact encodeSuffix_eval 21 "theatrical-close," i 't' _ rfl (by decide) (by decide)

theorem encodeStatus_movie_dig_close (i : Int) :
    encodeStatus "movie" ("digitalPhysical-close," ++ intRepr i)
      = .ok (.int (22 * 10 ^ (intRepr i).length + i)) := by
  have h1 : ¬ ("digitalPhysical-close," ++ intRepr i) = "theatrical-already-released" := by
    intro h; have h' := congrArg String.data h; simp at h'
  have h2 : ¬ ("digitalPhysical-close," ++ intRepr i) = "digitalPhysical-already-released" := by
    intro h; have h' := congrArg String.data h; simp at h'
  have h3 : ¬ strStartsWith ("digitalPhysical-close," ++ intRepr i) "theatrical-close" = true := by
    simp [strStartsWith, isPre]
  have h4 : strStartsWith ("digitalPhysical-close," ++ intRepr i) "digitalPhysical-close"
      = true := by
    simp [strStartsWith, isPre]
  unfold encodeStatus
  rw [if_neg (show ¬ ("movie" : String) = "tv" by decide), if_pos rfl, if_neg h1, if_neg h2,
    if_neg h3, if_pos h4]
  exact encodeSuffix_eval 22 "digitalPhysical-close," i 'd' _ rfl (by decide) (by decide)

theorem encodeStatus_movie_th_none (i : Int) :
    encodeStatus "movie" ("theatrical-none," ++ intRepr i)
      = .ok (.int (31 * 10 ^ (intRepr i).length + i)) := by
  have h1 : ¬ ("theatrical-none," ++ intRepr i) = "theatrical-already-released" := by
    intro h; have h' := congrArg String.data h; simp at h'
  have h2 : ¬ ("theatrical-none," ++ intRepr i) = "digitalPhysical-already-released" := by
    intro h; have h' := congrArg String.data h; simp at h'
  have h3 : ¬ strStartsWith ("theatrical-none," ++ intRepr i) "theatrical-close" = true := by
    simp [strStartsWith, isPre]
  have h4 : ¬ strStartsWith ("theatrical-none," ++ intRepr i) "digitalPhysical-close" = true := by
    simp [strStartsWith, isPre]
  have h5 : strStartsWith ("theatrical-none," ++ intRepr i) "theatrical-none" = true := by
    simp [strStartsWith, isPre]
  unfold encodeStatus
  rw [if_neg (show ¬ ("movie" : String) = "tv" by decide), if_pos rfl, if_neg h1, if_neg h2,
    if_neg h3, if_neg h4, if_pos h5]
  exact encodeSuffix_eval 31 "theatrical-none," i 't' _ rfl (by decide) (by decide)

theorem encodeStatus_movie_dig_none (i : Int) :
    encodeStatus "movie" ("digitalPhysical-none," ++ intRepr i)
      = .ok (.int (32 * 10 ^ (intRepr i).length + i)) := by
  have h1 : ¬ ("digitalPhysical-none," ++ intRepr i) = "theatrical-already-released" := by
    intro h; have h' := congrArg String.data h; simp at h'
  have h2 : ¬ ("digitalPhysical-none," ++ intRepr i) = "digitalPhysical-already-released" := by
    intro h; have h' := congrArg String.data h; simp at h'
  have h3 : ¬ strStartsWith ("digitalPhysical-none," ++ intRepr i) "theatrical-close" = true := by
    simp [strStartsWith, isPre]
  have h4 : ¬ strStartsWith ("digitalPhysical-none," ++ intRepr i) "digitalPhysical-close"
      = true := by
    simp [strStartsWith, isPre]
  have h5 : ¬ strStartsWith ("digitalPhysical-none," ++ intRepr i) "theatrical-none" = true := by
    simp [strStartsWith, isPre]
  have h6 : strStartsWith ("digitalPhysical-none," ++ intRepr i) "digitalPhysical-none"
      = true := by
    simp [strStartsWith, isPre]
  unfold encodeStatus
  rw [if_neg (show ¬ ("movie" : String) = "tv" by decide), if_pos rfl, if_neg h1, if_neg h2,
    if_neg h3, if_neg h4, if_neg h5, if_pos h6]
  exact encodeSuffix_eval 32 "digitalPhysical-none," i 'd' _ rfl (by decide) (by decide)

/-! ### Lemmas: proximity evaluator -/

theorem isReleaseClose_difference (n t T : Int) :
    (isReleaseClose n t T).difference = roundDiv (t - n) msPerDay := rfl

theorem isReleaseClose_isClose_iff (n t T : Int) :
    (isReleaseClose n t T).isClose = true ↔ (isReleaseClose n t T).difference ≤ T := by
  simp [isReleaseClose]

/-! ### Lemmas: prefix decomposition and the error arm of `encodeSuffix` -/

theorem isPre_exact : ∀ (p s : List Char), isPre p s = true → ∃ t, s = p ++ t := by
  intro p
  induction p with
  | nil => intro s _; exact ⟨s, rfl⟩
  | cons a as ih =>
    intro s h
    cases s with
    | nil => simp [isPre] at h
    | cons b bs =>
      simp only [isPre, Bool.and_eq_true, beq_iff_eq] at h
      obtain ⟨hab, hpre⟩ := h
      obtain ⟨t, ht⟩ := ih bs hpre
      exact ⟨t, by rw [hab, ht]; rfl⟩

theorem string_of_data {s : String} {l : List Char} (h : s.data = l) : s = String.mk l := by
  cases s; cases h; rfl

theorem encodeSuffix_error_iff (base : Int) (raw sep : String) :
    encodeSuffix base raw sep = .error .typeError ↔ strContains raw sep = false := by
  unfold encodeSuffix jsSplitAt1 strContains
  cases h : splitFirstAux sep.data raw.data with
  | none => simp
  | some p =>
    obtain ⟨pre, rest⟩ := p
    cases h2 : splitFirstAux sep.data rest with
    | none => simp [h2]
    | some q =>
      obtain ⟨seg, rest2⟩ := q
      simp [h2]

/-! ### Claim theorems -/

/-- Claim C1: the status encoder maps the documented raw statuses to
exactly the documented integers: `close,0` to 200 and `none,15` to 3015
for tv, `theatrical-already-released` to 11 and `digitalPhysical-close,3`
to 223 for movies, and unmatched garbage to the -1 sentinel. -/
theorem claim_C1 :
    encodeStatus "tv" "close,0" = .ok (.int 200)
    ∧ encodeStatus "tv" "none,15" = .ok (.int 3015)
    ∧ encodeStatus "movie" "theatrical-already-released" = .ok (.int 11)
    ∧ encodeStatus "movie" "digitalPhysical-close,3" = .ok (.int 223)
    ∧ encodeStatus "tv" "unknown-garbage" = .ok (.int (-1)) := by
  refine ⟨?_, ?_, ?_, ?_, ?_⟩ <;> decide

/-- Claim C4: `isReleaseClose` returns the half-up-rounded whole-day
difference `(target - now) / 86400000` together with
`isClose = (difference <= threshold)`; any difference at most the
threshold (however negative) counts as close, and an equal now and target
give difference 0, close under every non-negative threshold. -/
theorem claim_C4 (now target T : Int) :
    (isReleaseClose now target T).difference = roundDiv (target - now) msPerDay
    ∧ ((isReleaseClose now target T).isClose = true
        ↔ (isReleaseClose now target T).difference ≤ T)
    ∧ (isReleaseClose now now T).difference = 0
    ∧ (0 ≤ T → (isReleaseClose now now T).isClose = true) := by
  have hz : (isReleaseClose now now T).difference = 0 := by
    show roundDiv (now - now) msPerDay = 0
    simp only [roundDiv, msPerDay]
    omega
  refine ⟨rfl, isReleaseClose_isClose_iff now target T, hz, fun h => ?_⟩
  rw [isReleaseClose_isClose_iff now now T, hz]
  exact h

/-- Claim C4 witness: at the concrete instant 2024-01-01T00:00:00Z used as
both now and target, the difference is 0 and a threshold of 7 is close. -/
theorem claim_C4_witness :
    (isReleaseClose 1704067200000 1704067200000 7).difference = 0
    ∧ (isReleaseClose 1704067200000 1704067200000 7).isClose = true := by
  have h := claim_C4 1704067200000 1704067200000 7
  exact ⟨h.2.2.1, h.2.2.2 (by decide)⟩

/-- Claim C5 counterexample: for two instants exactly half a day apart the
day difference is 1 in one direction but 0 (JavaScript's `-0`) in the
other, because `Math.round` rounds halves toward positive infinity, so
`differenceDays` is not antisymmetric for arbitrary date pairs. -/
theorem claim_C5_counterexample :
    ¬ ((isReleaseClose 0 43200000 7).difference
        = -((isReleaseClose 43200000 0 7).difference)) := by decide

/-- Claim C5 (amended): the day difference is antisymmetric under swapping
the two dates whenever their distance is not congruent to exactly half a
day modulo a whole day — in particular for any two midnight-aligned
dates, whose distance is a whole multiple of a day. -/
theorem claim_C5_amended (A B T : Int) (h : (B - A) % msPerDay ≠ 43200000) :
    (isReleaseClose A B T).difference = -((isReleaseClose B A T).difference) := by
  show roundDiv (B - A) msPerDay = -(roundDiv (A - B) msPerDay)
  simp only [roundDiv, msPerDay] at h ⊢
  omega

/-- Claim C5 witness: one whole day apart, the difference is 1 one way and
-1 the other. -/
theorem claim_C5_witness :
    (isReleaseClose 0 86400000 3).difference = -((isReleaseClose 86400000 0 3).difference) :=
  claim_C5_amended 0 86400000 3 (by decide)

/-- Claim C3 counterexample: the raw status `"close"` matches the
`/^close/` test but contains no `"close,"` separator, so `split[1]` is
`undefined` and reading its `.length` throws a TypeError — `encodeStatus`
does not terminate normally on every input. -/
theorem claim_C3_counterexample :
    encodeStatus "tv" "close" = .error .typeError := by decide

/-- Claim C3 (amended): `encodeStatus` throws (a TypeError) exactly on the
inputs whose raw status starts with one of its close/none category
patterns for the given mode but lacks the corresponding comma-terminated
separator substring; on every input matching none of the known patterns it
instead terminates normally with the integer sentinel -1. -/
theorem claim_C3_amended (mode raw : String) :
    (encodeStatus mode raw = .error .typeError ↔ encodeThrows mode raw)
    ∧ (¬ matchesKnown mode raw → encodeStatus mode raw = .ok (.int (-1))) := by
  by_cases hm : mode = "tv"
  · subst hm
    by_cases h1 : raw = "ended"
    · subst h1
      exact ⟨by decide, fun hnm => absurd (by decide) hnm⟩
    · by_cases h2 : raw = "already-released"
      · subst h2
        exact ⟨by decide, fun hnm => absurd (by decide) hnm⟩
      · by_cases hc : strStartsWith raw "close" = true
        · obtain ⟨t, ht⟩ := isPre_exact "close".data raw.data hc
          have hraw : raw = String.mk ("close".data ++ t) := string_of_data ht
          subst hraw
          constructor
          · rw [show encodeStatus "tv" (String.mk ("close".data ++ t))
                = encodeSuffix 20 (String.mk ("close".data ++ t)) "close," by
              unfold encodeStatus
              rw [if_pos rfl, if_neg h1, if_neg h2, if_pos hc]]
            rw [encodeSuffix_error_iff]
            simp [encodeThrows, throwsFor, strStartsWith, isPre]
          · intro hnm
            exact absurd (Or.inl ⟨rfl, Or.inr (Or.inr (Or.inl hc))⟩) hnm
        · by_cases hd : strStartsWith raw "none" = true
          · obtain ⟨t, ht⟩ := isPre_exact "none".data raw.data hd
            have hraw : raw = String.mk ("none".data ++ t) := string_of_data ht
            subst hraw
            constructor
            · rw [show encodeStatus "tv" (String.mk ("none".data ++ t))
                  = encodeSuffix 30 (String.mk ("none".data ++ t)) "none," by
                unfold encodeStatus
                rw [if_pos rfl, if_neg h1, if_neg h2, if_neg hc, if_pos hd]]
              rw [encodeSuffix_error_iff]
              simp [encodeThrows, throwsFor, strStartsWith, isPre]
            · intro hnm
              exact absurd (Or.inl ⟨rfl, Or.inr (Or.inr (Or.inr hd))⟩) hnm
          · have hres : encodeStatus "tv" raw = .ok (.int (-1)) := by
              unfold encodeStatus
              rw [if_pos rfl, if_neg h1, if_neg h2, if_neg hc, if_neg hd]
            refine ⟨?_, fun _ => hres⟩
            rw [hres]
            simp [encodeThrows, throwsFor, hc, hd]
  · by_cases hm2 : mode = "movie"
    · subst hm2
      by_cases h1 : raw = "theatrical-already-released"
      · subst h1
        exact ⟨by decide, fun hnm => absurd (by decide) hnm⟩
      · by_cases h2 : raw = "digitalPhysical-already-released"
        · subst h2
          exact ⟨by decide, fun hnm => absurd (by decide) hnm⟩
        · by_cases h3 : strStartsWith raw "theatrical-close" = true
          · obtain ⟨t, ht⟩ := isPre_exact "theatrical-close".data raw.data h3
            have hraw : raw = String.mk ("theatrical-close".data ++ t) := string_of_data ht
            subst hraw
            constructor
            · rw [show encodeStatus "movie" (String.mk ("theatrical-close".data ++ t))
                  = encodeSuffix 21 (String.mk ("theatrical-close".data ++ t))
                      "theatrical-close," by
                unfold encodeStatus
                rw [if_neg (show ¬ ("movie" : String) = "tv" by decide), if_pos rfl,
                  if_neg h1, if_neg h2, if_pos h3]]
              rw [encodeSuffix_error_iff]
              simp [encodeThrows, throwsFor, strStartsWith, isPre]
            · intro hnm
              exact absurd (Or.inr ⟨rfl, Or.inr (Or.inr (Or.inl h3))⟩) hnm
          · by_cases h4 : strStartsWith raw "digitalPhysical-close" = true
            · obtain ⟨t, ht⟩ := isPre_exact "digitalPhysical-close".data raw.data h4
              have hraw : raw = String.mk ("digitalPhysical-close".data ++ t) := string_of_data ht
              subst hraw
              constructor
              · rw [show encodeStatus "movie" (String.mk ("digitalPhysical-close".data ++ t))
                    = encodeSuffix 22 (String.mk ("digitalPhysical-close".data ++ t))
                        "digitalPhysical-close," by
                  unfold encodeStatus
                  rw [if_neg (show ¬ ("movie" : String) = "tv" by decide), if_pos rfl,
                    if_neg h1, if_neg h2, if_neg h3, if_pos h4]]
                rw [encodeSuffix_error_iff]
                simp [encodeThrows, throwsFor, strStartsWith, isPre]
              · intro hnm
                exact absurd (Or.inr ⟨rfl, Or.inr (Or.inr (Or.inr (Or.inl h4)))⟩) hnm
            · by_cases h5 : strStartsWith raw "theatrical-none" = true
              · obtain ⟨t, ht⟩ := isPre_exact "theatrical-none".data raw.data h5
                have hraw : raw = String.mk ("theatrical-none".data ++ t) := string_of_data ht
                subst hraw
                constructor
                · rw [show encodeStatus "movie" (String.mk ("theatrical-none".data ++ t))
                      = encodeSuffix 31 (String.mk ("theatrical-none".data ++ t))
                          "theatrical-none," by
                    unfold encodeStatus
                    rw [if_neg (show ¬ ("movie" : String) = "tv" by decide), if_pos rfl,
                      if_neg h1, if_neg h2, if_neg h3, if_neg h4, if_pos h5]]
                  rw [encodeSuffix_error_iff]
                  simp [encodeThrows, throwsFor, strStartsWith, isPre]
                · intro hnm
                  exact absurd
                    (Or.inr ⟨rfl, Or.inr (Or.inr (Or.inr (Or.inr (Or.inl h5))))⟩) hnm
              · by_cases h6 : strStartsWith raw "digitalPhysical-none" = true
                · obtain ⟨t, ht⟩ := isPre_exact "digitalPhysical-none".data raw.data h6
                  have hraw : raw = String.mk ("digitalPhysical-none".data ++ t) :=
                    string_of_data ht
                  subst hraw
                  constructor
                  · rw [show encodeStatus "movie" (String.mk ("digitalPhysical-none".data ++ t))
                        = encodeSuffix 32 (String.mk ("digitalPhysical-none".data ++ t))
                            "digitalPhysical-none," by
                      unfold encodeStatus
                      rw [if_neg (show ¬ ("movie" : String) = "tv" by decide), if_pos rfl,
                        if_neg h1, if_neg h2, if_neg h3, if_neg h4, if_neg h5, if_pos h6]]
                    rw [encodeSuffix_error_iff]
                    simp [encodeThrows, throwsFor, strStartsWith, isPre]
                  · intro hnm
                    exact absurd
                      (Or.inr ⟨rfl, Or.inr (Or.inr (Or.inr (Or.inr (Or.inr h6))))⟩) hnm
                · have hres : encodeStatus "movie" raw = .ok (.int (-1)) := by
                    unfold encodeStatus
                    rw [if_neg (show ¬ ("movie" : String) = "tv" by decide), if_pos rfl,
                      if_neg h1, if_neg h2, if_neg h3, if_neg h4, if_neg h5, if_neg h6]
                  refine ⟨?_, fun _ => hres⟩
                  rw [hres]
                  simp [encodeThrows, throwsFor, h3, h4, h5, h6]
    · have hres : encodeStatus mode raw = .ok (.int (-1)) := by
        unfold encodeStatus
        rw [if_neg hm, if_neg hm2]
      refine ⟨?_, fun _ => hres⟩
      rw [hres]
      simp [encodeThrows, hm, hm2]

/-- Claim C3 witness: a mode outside the known vocabulary matches no
pattern and yields the -1 sentinel without an error. -/
theorem claim_C3_witness :
    encodeStatus "radio" "whatever" = .ok (.int (-1)) :=
  (claim_C3_amended "radio" "whatever").2 (by decide)

/-! ### Lemmas: the status table -/

theorem intRepr_coe (d : Nat) : intRepr (d : Int) = natRepr d := by
  unfold intRepr natRepr
  rw [if_neg (by omega), Int.toNat_natCast]

theorem natRepr_cast_lt (d : Nat) : (d : Int) < 10 ^ (natRepr d).length := by
  rw [natRepr_length]
  exact_mod_cast natDigits_lt d

/-- A two-digit base shifted left by the magnitude's digit count plus the
magnitude determines both the base and the magnitude. -/
theorem statusCode_inj (b1 b2 : Int) (L1 L2 : Nat) (d1 d2 : Nat)
    (hb1 : 10 ≤ b1) (hb1' : b1 ≤ 99) (hb2 : 10 ≤ b2) (hb2' : b2 ≤ 99)
    (hd1 : (d1 : Int) < 10 ^ L1) (hd2 : (d2 : Int) < 10 ^ L2)
    (h : b1 * 10 ^ L1 + (d1 : Int) = b2 * 10 ^ L2 + (d2 : Int)) :
    b1 = b2 ∧ d1 = d2 := by
  have hN1 : (0 : Int) < 10 ^ L1 := pow_pos (by norm_num) _
  have hN2 : (0 : Int) < 10 ^ L2 := pow_pos (by norm_num) _
  have hup1 : b1 * 10 ^ L1 + (d1 : Int) < 10 ^ (L1 + 2) := by
    have hpow : (10 : Int) ^ (L1 + 2) = 100 * 10 ^ L1 := by rw [pow_add]; ring
    nlinarith [mul_le_mul_of_nonneg_right hb1' (le_of_lt hN1)]
  have hup2 : b2 * 10 ^ L2 + (d2 : Int) < 10 ^ (L2 + 2) := by
    have hpow : (10 : Int) ^ (L2 + 2) = 100 * 10 ^ L2 := by rw [pow_add]; ring
    nlinarith [mul_le_mul_of_nonneg_right hb2' (le_of_lt hN2)]
  have hlo1 : (10 : Int) ^ (L1 + 1) ≤ b1 * 10 ^ L1 + (d1 : Int) := by
    have hpow : (10 : Int) ^ (L1 + 1) = 10 * 10 ^ L1 := by rw [pow_add]; ring
    have hcast : (0 : Int) ≤ (d1 : Int) := Int.natCast_nonneg d1
    nlinarith [mul_le_mul_of_nonneg_right hb1 (le_of_lt hN1)]
  have hlo2 : (10 : Int) ^ (L2 + 1) ≤ b2 * 10 ^ L2 + (d2 : Int) := by
    have hpow : (10 : Int) ^ (L2 + 1) = 10 * 10 ^ L2 := by rw [pow_add]; ring
    have hcast : (0 : Int) ≤ (d2 : Int) := Int.natCast_nonneg d2
    nlinarith [mul_le_mul_of_nonneg_right hb2 (le_of_lt hN2)]
  have hL : L1 = L2 := by
    rcases Nat.lt_trichotomy L1 L2 with hlt | heq | hgt
    · exfalso
      have hc : (10 : Int) ^ (L1 + 2) ≤ 10 ^ (L2 + 1) :=
        pow_le_pow_right₀ (by norm_num) (by omega)
      linarith
    · exact heq
    · exfalso
      have hc : (10 : Int) ^ (L2 + 2) ≤ 10 ^ (L1 + 1) :=
        pow_le_pow_right₀ (by norm_num) (by omega)
      linarith
  subst hL
  have hb : b1 = b2 := by
    have hcast1 : (0 : Int) ≤ (d1 : Int) := Int.natCast_nonneg d1
    have hcast2 : (0 : Int) ≤ (d2 : Int) := Int.natCast_nonneg d2
    rcases lt_trichotomy b1 b2 with h' | h' | h'
    · exfalso
      nlinarith [mul_le_mul_of_nonneg_right (show (1 : Int) ≤ b2 - b1 by omega)
        (le_of_lt hN1)]
    · exact h'
    · exfalso
      nlinarith [mul_le_mul_of_nonneg_right (show (1 : Int) ≤ b1 - b2 by omega)
        (le_of_lt hN1)]
  subst hb
  refine ⟨rfl, ?_⟩
  have : (d1 : Int) = (d2 : Int) := by linarith
  exact_mod_cast this

/-- Claim C2: every row of the documented status table encodes to
`base * 10 ^ len(d) + d` (the bare base for exact-match rows); dividing a
suffixed code by `10 ^ len(d)` recovers the base and subtracting the
shifted base recovers the magnitude, and a suffixed code determines the
(base, magnitude) pair uniquely across the table's bases. -/
theorem claim_C2 (k : StatusKind) (d : Nat) :
    encodeStatus (kindMode k) (kindRaw k d) = .ok (.int (statusCodeOf k d))
    ∧ (kindSuffixed k = true →
        statusCodeOf k d / 10 ^ (natRepr d).length = kindBase k
        ∧ statusCodeOf k d - kindBase k * 10 ^ (natRepr d).length = (d : Int))
    ∧ (∀ (k' : StatusKind) (d' : Nat), kindSuffixed k = true → kindSuffixed k' = true →
        statusCodeOf k d = statusCodeOf k' d' → kindBase k = kindBase k' ∧ d = d') := by
  refine ⟨?_, ?_, ?_⟩
  · cases k with
    | tvEnded =>
      simp only [kindMode, kindRaw, statusCodeOf, kindSuffixed, kindBase,
        Bool.false_eq_true, if_false]
      decide
    | tvAlreadyReleased =>
      simp only [kindMode, kindRaw, statusCodeOf, kindSuffixed, kindBase,
        Bool.false_eq_true, if_false]
      decide
    | movieTheatricalAlreadyReleased =>
      simp only [kindMode, kindRaw, statusCodeOf, kindSuffixed, kindBase,
        Bool.false_eq_true, if_false]
      decide
    | movieDigitalPhysicalAlreadyReleased =>
      simp only [kindMode, kindRaw, statusCodeOf, kindSuffixed, kindBase,
        Bool.false_eq_true, if_false]
      decide
    | tvClose =>
      have h := encodeStatus_tv_close (d : Int)
      rw [intRepr_coe] at h
      simpa [kindMode, kindRaw, statusCodeOf, kindSuffixed, kindBase] using h
    | tvNone =>
      have h := encodeStatus_tv_none (d : Int)
      rw [intRepr_coe] at h
      simpa [kindMode, kindRaw, statusCodeOf, kindSuffixed, kindBase] using h
    | movieTheatricalClose =>
      have h := encodeStatus_movie_th_close (d : Int)
      rw [intRepr_coe] at h
      simpa [kindMode, kindRaw, statusCodeOf, kindSuffixed, kindBase] using h
    | movieDigitalPhysicalClose =>
      have h := encodeStatus_movie_dig_close (d : Int)
      rw [intRepr_coe] at h
      simpa [kindMode, kindRaw, statusCodeOf, kindSuffixed, kindBase] using h
    | movieTheatricalNone =>
      have h := encodeStatus_movie_th_none (d : Int)
      rw [intRepr_coe] at h
      simpa [kindMode, kindRaw, statusCodeOf, kindSuffixed, kindBase] using h
    | movieDigitalPhysicalNone =>
      have h := encodeStatus_movie_dig_none (d : Int)
      rw [intRepr_coe] at h
      simpa [kindMode, kindRaw, statusCodeOf, kindSuffixed, kindBase] using h
  · intro hsuf
    simp only [statusCodeOf, hsuf, if_true]
    constructor
    · rw [show kindBase k * 10 ^ (natRepr d).length + (d : Int)
          = (d : Int) + kindBase k * 10 ^ (natRepr d).length by ring]
      rw [Int.add_mul_ediv_right _ _ (by positivity : (10 : Int) ^ (natRepr d).length ≠ 0)]
      rw [Int.ediv_eq_zero_of_lt (Int.natCast_nonneg d) (natRepr_cast_lt d)]
      ring
    · ring
  · intro k' d' hs hs' heq
    simp only [statusCodeOf, hs, hs', if_true] at heq
    have hb : 10 ≤ kindBase k ∧ kindBase k ≤ 99 := by
      cases k <;> first
        | exact absurd hs (by decide)
        | exact ⟨by decide, by decide⟩
    have hb' : 10 ≤ kindBase k' ∧ kindBase k' ≤ 99 := by
      cases k' <;> first
        | exact absurd hs' (by decide)
        | exact ⟨by decide, by decide⟩
    exact statusCode_inj (kindBase k) (kindBase k') (natRepr d).length (natRepr d').length d d'
      hb.1 hb.2 hb'.1 hb'.2 (natRepr_cast_lt d) (natRepr_cast_lt d') heq

/-- Claim C2 witness: the `tv close` row at magnitude 15 encodes to 2015
and decomposes back into base 20 and magnitude 15. -/
theorem claim_C2_witness :
    encodeStatus (kindMode .tvClose) (kindRaw .tvClose 15)
      = .ok (.int (statusCodeOf .tvClose 15))
    ∧ statusCodeOf .tvClose 15 / 10 ^ (natRepr 15).length = kindBase .tvClose
    ∧ statusCodeOf .tvClose 15 - kindBase .tvClose * 10 ^ (natRepr 15).length = (15 : Int) := by
  have h := claim_C2 .tvClose 15
  exact ⟨h.1, (h.2.1 (by decide)).1, (h.2.1 (by decide)).2⟩

/-- Claim C6: a show out of production yields the `ended` record (status 0,
empty `nextRelease` and `nextEpisode`) with no notification, for every
threshold; otherwise, with Δ the signed day difference to the next episode
air date, Δ < 0 within `isClose` yields `already-released` (status 10)
with the notification scheduled for today's date, 0 ≤ Δ ≤ T yields
`close,Δ` with the notification scheduled for the air date itself, and
Δ > T yields `none,Δ` with no notification. -/
theorem claim_C6 (id : Int) (details : TVDetails) (now : DateVal) (T : Int) :
    (details.in_production = false →
      ∃ rec, checkTV id details now T = .ok (rec, [])
        ∧ rec.status = .int 0 ∧ rec.nextRelease = "" ∧ rec.nextEpisode = "")
    ∧ (details.in_production = true →
      ∀ pr, isReleaseClose now.ms details.next_episode_to_air.air_date.ms T = pr →
        (pr.difference < 0 → pr.difference ≤ T →
          ∃ rec, checkTV id details now T = .ok (rec,
              [{ summary := details.name ++ " [" ++ rec.nextEpisode ++ "]",
                 description := "already-released", date := now.iso }])
            ∧ rec.status = .int 10)
        ∧ (0 ≤ pr.difference → pr.difference ≤ T →
          ∃ rec, checkTV id details now T = .ok (rec,
              [{ summary := details.name ++ " [" ++ rec.nextEpisode ++ "]",
                 description := "close," ++ intRepr pr.difference,
                 date := details.next_episode_to_air.air_date.iso }])
            ∧ encodeStatus "tv" ("close," ++ intRepr pr.difference) = .ok rec.status)
        ∧ (T < pr.difference →
          ∃ rec, checkTV id details now T = .ok (rec, [])
            ∧ encodeStatus "tv" ("none," ++ intRepr pr.difference) = .ok rec.status)) := by
  constructor
  · intro hprod
    refine ⟨{
        tmdbId := id, name := details.name, originalName := details.original_name,
        firstRelease := details.first_air_date, nextRelease := "", nextEpisode := "",
        poster := getImageLink details.poster_path "original",
        backdrop := getImageLink details.backdrop_path "original",
        status := .int 0 }, ?_, rfl, rfl, rfl⟩
    unfold checkTV
    rw [if_pos (by rw [hprod]; rfl)]
    rw [show encodeStatus "tv" "ended" = .ok (.int 0) from by decide]
    rfl
  · intro hprod pr hpr
    refine ⟨?_, ?_, ?_⟩
    · intro h1 h2
      have hic : pr.isClose = true := by
        rw [← hpr]
        rw [isReleaseClose_isClose_iff, hpr]
        exact h2
      refine ⟨{
          tmdbId := id, name := details.name, originalName := details.original_name,
          firstRelease := details.first_air_date,
          nextRelease := details.next_episode_to_air.air_date.iso,
          nextEpisode := "S" ++ padStart2 (natRepr details.next_episode_to_air.season_number)
            ++ "E" ++ padStart2 (natRepr details.next_episode_to_air.episode_number),
          poster := getImageLink details.poster_path "original",
          backdrop := getImageLink details.backdrop_path "original",
          status := .int 10 }, ?_, rfl⟩
      unfold checkTV
      rw [if_neg (by rw [hprod]; simp)]
      dsimp only
      rw [hpr, if_pos ⟨hic, h1⟩]
      rw [show encodeStatus "tv" "already-released" = .ok (.int 10) from by decide]
      rfl
    · intro h0 h2
      have hic : pr.isClose = true := by
        rw [← hpr]
        rw [isReleaseClose_isClose_iff, hpr]
        exact h2
      refine ⟨{
          tmdbId := id, name := details.name, originalName := details.original_name,
          firstRelease := details.first_air_date,
          nextRelease := details.next_episode_to_air.air_date.iso,
          nextEpisode := "S" ++ padStart2 (natRepr details.next_episode_to_air.season_number)
            ++ "E" ++ padStart2 (natRepr details.next_episode_to_air.episode_number),
          poster := getImageLink details.poster_path "original",
          backdrop := getImageLink details.backdrop_path "original",
          status := .int (20 * 10 ^ (intRepr pr.difference).length + pr.difference) },
        ?_, ?_⟩
      · unfold checkTV
        rw [if_neg (by rw [hprod]; simp)]
        dsimp only
        rw [hpr, if_neg (fun hand => absurd hand.2 (by omega)), if_pos hic]
        rw [encodeStatus_tv_close pr.difference]
        rfl
      · rw [encodeStatus_tv_close pr.difference]
    · intro hT
      have hic : ¬ (pr.isClose = true) := by
        rw [← hpr]
        rw [isReleaseClose_isClose_iff, hpr]
        omega
      refine ⟨{
          tmdbId := id, name := details.name, originalName := details.original_name,
          firstRelease := details.first_air_date,
          nextRelease := details.next_episode_to_air.air_date.iso,
          nextEpisode := "S" ++ padStart2 (natRepr details.next_episode_to_air.season_number)
            ++ "E" ++ padStart2 (natRepr details.next_episode_to_air.episode_number),
          poster := getImageLink details.poster_path "original",
          backdrop := getImageLink details.backdrop_path "original",
          status := .int (30 * 10 ^ (intRepr pr.difference).length + pr.difference) },
        ?_, ?_⟩
      · unfold checkTV
        rw [if_neg (by rw [hprod]; simp)]
        dsimp only
        rw [hpr, if_neg (fun hand => hic hand.1), if_neg hic]
        rw [encodeStatus_tv_none pr.difference]
        rfl
      · rw [encodeStatus_tv_none pr.difference]

/-- Claim C6 witness: a concrete show out of production yields the `ended`
record with no notification. -/
theorem claim_C6_witness :
    ∃ rec, checkTV 42
        { name := "Show", original_name := "Show", first_air_date := "2010-01-01",
          in_production := false,
          next_episode_to_air := {
            air_date := { iso := "2024-05-01", ms := 1714521600000 },
            season_number := 3, episode_number := 4 },
          poster_path := "/p.jpg", backdrop_path := "/b.jpg" }
        { iso := "2024-04-25", ms := 1714003200000 } 7 = .ok (rec, [])
      ∧ rec.status = .int 0 ∧ rec.nextRelease = "" ∧ rec.nextEpisode = "" :=
  (claim_C6 42
    { name := "Show", original_name := "Show", first_air_date := "2010-01-01",
      in_production := false,
      next_episode_to_air := {
        air_date := { iso := "2024-05-01", ms := 1714521600000 },
        season_number := 3, episode_number := 4 },
      poster_path := "/p.jpg", backdrop_path := "/b.jpg" }
    { iso := "2024-04-25", ms := 1714003200000 } 7).1 rfl

/-! ### Lemmas: the movie milestone arms always encode successfully -/

theorem encode_theatricalEval_ok (title : String) (now : DateVal) (rd : MovieReleaseDate)
    (maxDiff : Int) :
    ∃ v, encodeStatus "movie" (theatricalEval title now rd maxDiff).1 = .ok v := by
  unfold theatricalEval
  dsimp only
  split
  · refine ⟨.int 11, ?_⟩
    show encodeStatus "movie" "theatrical-already-released" = .ok (.int 11)
    decide
  · split
    · exact ⟨_, encodeStatus_movie_th_close _⟩
    · exact ⟨_, encodeStatus_movie_th_none _⟩

theorem encode_digitalPhysicalEval_ok (title : String) (now : DateVal) (rd : MovieReleaseDate)
    (maxDiff : Int) :
    ∃ v, encodeStatus "movie" (digitalPhysicalEval title now rd maxDiff).1 = .ok v := by
  unfold digitalPhysicalEval
  dsimp only
  split
  · refine ⟨.int 12, ?_⟩
    show encodeStatus "movie" "digitalPhysical-already-released" = .ok (.int 12)
    decide
  · split
    · exact ⟨_, encodeStatus_movie_dig_close _⟩
    · exact ⟨_, encodeStatus_movie_dig_none _⟩

/-- Claim C7: when the selected region carries both a theatrical and a
digital/physical milestone, both proximity evaluations run (in order, each
contributing its own notifications), but the persisted status is the
encoding of the digital/physical evaluation's status string alone; when no
digital/physical milestone exists, the persisted status is the encoding of
the theatrical outcome. -/
theorem claim_C7 (id : Int) (details : MovieDetails) (releases : List RegionalReleases)
    (now : DateVal) (maxDiff : Int) (region : RegionalReleases) (rest : List RegionalReleases)
    (t : MovieReleaseDate) (ts : List MovieReleaseDate)
    (hreg : movieRegion releases = region :: rest)
    (hth : region.release_dates.filter (fun rel => rel.type = 3) = t :: ts) :
    (∀ dp dps, digitalPick region = dp :: dps →
      ∃ rec, checkMovie id details releases now maxDiff
          = .ok (rec, (theatricalEval details.title now t maxDiff).2
              ++ (digitalPhysicalEval details.title now dp maxDiff).2)
        ∧ encodeStatus "movie" (digitalPhysicalEval details.title now dp maxDiff).1
            = .ok rec.status)
    ∧ (digitalPick region = [] →
      ∃ rec, checkMovie id details releases now maxDiff
          = .ok (rec, (theatricalEval details.title now t maxDiff).2)
        ∧ encodeStatus "movie" (theatricalEval details.title now t maxDiff).1
            = .ok rec.status) := by
  constructor
  · intro dp dps hdp
    obtain ⟨v, hv⟩ := encode_digitalPhysicalEval_ok details.title now dp maxDiff
    refine ⟨{
        tmdbId := id, name := details.title, originalName := details.original_title,
        firstRelease := details.release_date,
        theatricalRelease := beforeLastTStr t.release_date,
        digitalPhysicalRelease := beforeLastTStr dp.release_date,
        poster := getImageLink details.poster_path "original",
        backdrop := getImageLink details.backdrop_path "original",
        status := v }, ?_, hv⟩
    unfold checkMovie
    rw [hreg]
    dsimp only
    rw [hth, hdp]
    dsimp only
    rw [hv]
    rfl
  · intro hdp
    obtain ⟨v, hv⟩ := encode_theatricalEval_ok details.title now t maxDiff
    refine ⟨{
        tmdbId := id, name := details.title, originalName := details.original_title,
        firstRelease := details.release_date,
        theatricalRelease := beforeLastTStr t.release_date,
        digitalPhysicalRelease := "",
        poster := getImageLink details.poster_path "original",
        backdrop := getImageLink details.backdrop_path "original",
        status := v }, ?_, hv⟩
    unfold checkMovie
    rw [hreg]
    dsimp only
    rw [hth, hdp]
    dsimp only
    rw [hv]
    simp only [Except.map, List.append_nil]
    rfl

/-- Claim C7 witness: a concrete region with both milestones persists the
digital/physical outcome while issuing both arms' notifications. -/
theorem claim_C7_witness :
    ∃ rec, checkMovie 9 sampleMovieDetails [sampleRegionUS] sampleNow 7
        = .ok (rec, (theatricalEval sampleMovieDetails.title sampleNow sampleTheatrical 7).2
            ++ (digitalPhysicalEval sampleMovieDetails.title sampleNow sampleDigital 7).2)
      ∧ encodeStatus "movie"
          (digitalPhysicalEval sampleMovieDetails.title sampleNow sampleDigital 7).1
          = .ok rec.status :=
  (claim_C7 9 sampleMovieDetails [sampleRegionUS] sampleNow 7 sampleRegionUS []
    sampleTheatrical [] (by decide) (by decide)).1 sampleDigital [] (by decide)

/-- Claim C8: `checkMovie` works on the US entries of the release list,
falls back to the DE entries when there are no US entries, and when
neither region is present fails the whole operation with the thrown
error, producing no record. -/
theorem claim_C8 (id : Int) (details : MovieDetails) (releases : List RegionalReleases)
    (now : DateVal) (maxDiff : Int) :
    (releases.filter (fun res => res.iso_3166_1 = "US") ≠ [] →
      movieRegion releases = releases.filter (fun res => res.iso_3166_1 = "US"))
    ∧ (releases.filter (fun res => res.iso_3166_1 = "US") = [] →
      movieRegion releases = releases.filter (fun res => res.iso_3166_1 = "DE"))
    ∧ (releases.filter (fun res => res.iso_3166_1 = "US") = [] →
      releases.filter (fun res => res.iso_3166_1 = "DE") = [] →
      checkMovie id details releases now maxDiff
        = .error (.thrownString "No releases for US or DE found!")) := by
  refine ⟨?_, ?_, ?_⟩
  · intro hne
    simp [movieRegion, List.isEmpty_iff, hne]
  · intro h0
    simp [movieRegion, List.isEmpty_iff, h0]
  · intro h0 h1
    have hmr : movieRegion releases = [] := by
      simp [movieRegion, List.isEmpty_iff, h0, h1]
    unfold checkMovie
    rw [hmr]

/-- Claim C8 witness: an empty release list fails with the thrown error. -/
theorem claim_C8_witness :
    checkMovie 9 sampleMovieDetails [] sampleNow 7
      = .error (.thrownString "No releases for US or DE found!") :=
  (claim_C8 9 sampleMovieDetails [] sampleNow 7).2.2 rfl rfl

/-- Claim C10: with a selected region but neither a theatrical (type 3)
nor a digital/physical (type 5 or 4) milestone, `checkMovie` still
succeeds: both release fields come out as the empty string (the trimmed
`'T'` sentinel) and the status is the -1 sentinel, with no
notification. -/
theorem claim_C10 (id : Int) (details : MovieDetails) (releases : List RegionalReleases)
    (now : DateVal) (maxDiff : Int) (region : RegionalReleases) (rest : List RegionalReleases)
    (hreg : movieRegion releases = region :: rest)
    (h3 : region.release_dates.filter (fun rel => rel.type = 3) = [])
    (h5 : region.release_dates.filter (fun rel => rel.type = 5) = [])
    (h4 : region.release_dates.filter (fun rel => rel.type = 4) = []) :
    ∃ rec, checkMovie id details releases now maxDiff = .ok (rec, [])
      ∧ rec.theatricalRelease = "" ∧ rec.digitalPhysicalRelease = ""
      ∧ rec.status = .int (-1) := by
  have hdp : digitalPick region = [] := by
    simp [digitalPick, List.isEmpty_iff, h5, h4]
  refine ⟨{
      tmdbId := id, name := details.title, originalName := details.original_title,
      firstRelease := details.release_date,
      theatricalRelease := "", digitalPhysicalRelease := "",
      poster := getImageLink details.poster_path "original",
      backdrop := getImageLink details.backdrop_path "original",
      status := .int (-1) }, ?_, rfl, rfl, rfl⟩
  unfold checkMovie
  rw [hreg]
  dsimp only
  rw [h3, hdp]
  dsimp only
  rw [show encodeStatus "movie" "" = .ok (.int (-1)) from by decide]
  rfl

/-- Claim C10 witness: a concrete region carrying only a premiere entry
yields the empty release fields and the -1 status. -/
theorem claim_C10_witness :
    ∃ rec, checkMovie 9 sampleMovieDetails [sampleRegionBare] sampleNow 7 = .ok (rec, [])
      ∧ rec.theatricalRelease = "" ∧ rec.digitalPhysicalRelease = ""
      ∧ rec.status = .int (-1) :=
  claim_C10 9 sampleMovieDetails [sampleRegionBare] sampleNow 7 sampleRegionBare []
    (by decide) (by decide) (by decide) (by decide)

/-- Claim C9: when the calendar's currently-known event list already holds
an event whose content contains the exact title substring and both
formatted date tokens (`DTSTART;VALUE=DATE:YYYYMMDD` and
`DTEND;VALUE=DATE:YYYYMMDD`, dashes stripped), `setCalNotification`
creates no event, so two identical calls against such a calendar make at
most one creation call. -/
theorem claim_C9 (cal : Calendar) (title description date : String)
    (h : ∃ ev ∈ cal.objects, strContains ev.calendarData title = true
        ∧ strContains ev.calendarData ("DTSTART;VALUE=DATE:" ++ stripDashes date) = true
        ∧ strContains ev.calendarData ("DTEND;VALUE=DATE:" ++ stripDashes date) = true) :
    setCalNotification cal title description date = []
    ∧ (setCalNotification cal title description date).length
        + (setCalNotification cal title description date).length ≤ 1 := by
  obtain ⟨ev, hev, h1, h2, h3⟩ := h
  have hex : checkIfEventExists cal
      { summary := title, description := description, start := date, endDate := date }
      = true := by
    unfold checkIfEventExists
    dsimp only
    rw [List.any_eq_true]
    refine ⟨ev, List.mem_filter.mpr ⟨hev, h1⟩, ?_⟩
    rw [h2, h3]
    rfl
  have hempty : setCalNotification cal title description date = [] := by
    unfold setCalNotification
    dsimp only
    rw [if_pos hex]
  refine ⟨hempty, ?_⟩
  rw [hempty]
  simp

/-- Claim C9 witness: against a calendar already holding the matching
event, a concrete notification call creates nothing. -/
theorem claim_C9_witness :
    setCalNotification sampleCalendar "Show [S03E04]" "close,6" "2024-05-01" = []
    ∧ (setCalNotification sampleCalendar "Show [S03E04]" "close,6" "2024-05-01").length
        + (setCalNotification sampleCalendar "Show [S03E04]" "close,6" "2024-05-01").length
        ≤ 1 :=
  claim_C9 sampleCalendar "Show [S03E04]" "close,6" "2024-05-01" (by decide)

end TVspotter
